import Mathlib

/-!
Verification of the A4T toolhead configurator's rule-evaluation core.

The JavaScript source (docs/js/app.js, docs/js/partsManifest.js, and the
coverage-test mirror of the matching logic) is shallowly embedded below:

* JS primitive values appearing in configurations and manifest predicates
  become the inductive type `Val`; a configuration object becomes a total
  function from property name to `Option Val`, where `none` plays the role
  of JavaScript's `undefined` for a missing key.
* The imperative early-return loops of `partMatchesConfig`,
  `checkCompatibility`, `getMatchingParts` and the download-file builder
  become structurally matching pure functions on lists.
* File paths are manipulated as `List Char`, with the JavaScript string
  operations (`split('/')`, first-occurrence `replace`, `endsWith`)
  implemented as executable recursive functions.

Only the fields that the embedded logic actually reads are carried by the
manifest records (render transforms, descriptions, quantities and print
notes are never consulted by the matching / file-resolution code).
-/

namespace A4T

/-- A JavaScript primitive value as it occurs in configurations, manifest
predicates and decoded share-state payloads: a string, a boolean, or a
number. -/
inductive Val where
  | str : String → Val
  | bool : Bool → Val
  | num : Int → Val
deriving DecidableEq, Repr

/-- Shorthand for string values, which make up almost all manifest data. -/
def vs (s : String) : Val := Val.str s

/-- A configuration object: property lookup returns `none` for a missing
key, mirroring JavaScript's `undefined`. -/
def Config : Type := String → Option Val

/-- Functional update of one configuration key (`config[k] = v`). -/
def setKey (c : Config) (k : String) (v : Val) : Config :=
  fun k' => if k' = k then some v else c k'

/-- Association-list lookup, used for the JS object-by-key accesses of the
manifest (`compatibility[id]`, `variants[id]`, ...). -/
def lookupKey {α : Type} : List (String × α) → String → Option α
  | [], _ => none
  | (k', v) :: rest, k => if k' = k then some v else lookupKey rest k

/-- JS truthiness of a possibly-missing value (`if (config.hexCowl)`). -/
def jsTruthy : Option Val → Bool
  | none => false
  | some (Val.bool b) => b
  | some (Val.str s) => !(s == "")
  | some (Val.num n) => !(n == 0)

/-- One part variant of the manifest, restricted to the fields read by the
matching and file-resolution logic.  A predicate field holds `none` when
the JS object lacks the property. -/
structure PartVariant where
  file : String := ""
  stlPath : Option String := none
  stlFile : String := ""
  requires : Option (List (String × Val)) := none
  requiresAny : Option (List (String × List Val)) := none
  excludeIf : Option (List (String × List Val)) := none
  always : Bool := false
  visualOnly : Bool := false
deriving DecidableEq, Repr

/-- Does the configuration's value for the axis `p.1` lie in the candidate
set `p.2`?  This is `p.2.includes(config[p.1])`; a missing key reads as
`undefined`, which is never an element of a manifest value list. -/
def memberOk (config : Config) (p : String × List Val) : Bool :=
  match config p.1 with
  | some v => p.2.contains v
  | none => false

/-- The predicate evaluator of app.js (`partMatchesConfig`, app.js:336):
`requires` pairs are checked first (strict equality, any failure returns
false), then `requiresAny` (every listed axis must have its value in its
candidate set), then `excludeIf` (any hit returns false); the trailing
`always` test is followed by an unconditional `return true`.  A present but
empty predicate object and an absent one both impose no constraint, so both
are embedded as an empty list of pairs. -/
def partMatchesConfig (partData : PartVariant) (config : Config) : Bool :=
  if (partData.requires.getD []).any (fun p => !(config p.1 == some p.2)) then
    false
  else if (partData.requiresAny.getD []).any (fun p => !(memberOk config p)) then
    false
  else if (partData.excludeIf.getD []).any (fun p => memberOk config p) then
    false
  else if partData.always then
    true
  else
    true

/-- The `excludeIf` step of the coverage-test mirror evaluator
(part_000:231-238): no listed axis may have its value in its forbidden
set. -/
def devExcludeOk (partData : PartVariant) (config : Config) : Bool :=
  if (partData.excludeIf.getD []).any (fun p => memberOk config p) then
    false
  else
    true

/-- The mirror evaluator of the coverage-test script
(`partMatchesConfig`, part_000:208-241).  It checks `always` first, then
`requires` as in app.js; its `requiresAny` loop, however, sets a single
`anyMatch` flag as soon as ANY listed axis matches, so a present
`requiresAny` object passes as soon as one axis's value is in that axis's
candidate set (and a present but empty one always fails). -/
def devPartMatchesConfig (partData : PartVariant) (config : Config) : Bool :=
  if partData.always then
    true
  else if (partData.requires.getD []).any (fun p => !(config p.1 == some p.2)) then
    false
  else
    match partData.requiresAny with
    | none => devExcludeOk partData config
    | some pairs =>
        if pairs.any (fun p => memberOk config p) then
          devExcludeOk partData config
        else
          false

/-- One selectable option of a configuration axis (partsManifest.js
`configOptions.*.options[i]`). -/
structure OptionDef where
  id : String
  label : String := ""
  isDefault : Bool := false
  noExtruderAdapter : Bool := false
deriving DecidableEq, Repr

/-- One configuration axis: display label and enumerated options. -/
structure OptionGroup where
  label : String := ""
  options : List OptionDef := []
deriving DecidableEq, Repr

/-- A compatibility rule (partsManifest.js `compatibility[id]`), keyed by an
extruder or hotend id. -/
structure CompatRule where
  incompatibleWith : Option (List (String × List Val)) := none
  noExtruderAdapter : Bool := false
  requiresSpacing : Bool := false
  compatibleExtruders : Option (List String) := none
  warningMessage : String := ""
deriving DecidableEq, Repr

/-- A part category: display label plus its variants in manifest insertion
order. -/
structure Category where
  category : String := ""
  variants : List (String × PartVariant) := []
deriving DecidableEq, Repr

/-- The manifest, restricted to the tables the rule engine consults. -/
structure Manifest where
  configOptions : List (String × OptionGroup) := []
  compatibility : List (String × CompatRule) := []
  parts : List (String × Category) := []
  stlOnlyParts : List (String × Category) := []
deriving DecidableEq, Repr

/-- Does axis `axis` of the manifest's option domains contain the option id
`id`? -/
def domainContains (m : Manifest) (axis id : String) : Bool :=
  match lookupKey m.configOptions axis with
  | some g => g.options.any (fun o => o.id == id)
  | none => false

/-- Lookup `partsManifest.compatibility[x]` where `x` is a configuration value:
JavaScript coerces the key to a string; non-string values never hit a key
of this manifest's compatibility table. -/
def compatLookup (m : Manifest) (x : Option Val) : Option CompatRule :=
  match x with
  | some (Val.str s) => lookupKey m.compatibility s
  | _ => none

/-- The configuration option domains of partsManifest.js (`configOptions`). -/
def a4tConfigOptions : List (String × OptionGroup) :=
  [ ("carriage",
     { label := "Carriage",
       options :=
        [ { id := "xol-carriage", label := "Xol-Carriage", isDefault := true },
          { id := "cw2-tap", label := "CW2 / Tap" } ] }),
    ("hotend",
     { label := "Hotend",
       options :=
        [ { id := "dragon", label := "Dragon + MZE", isDefault := true },
          { id := "dragon-ace", label := "Dragon Ace" },
          { id := "dragon-uhf-mini", label := "Dragon UHF-Mini" },
          { id := "dragon-ace-volcano", label := "Dragon Ace Volcano (no MZE)" },
          { id := "rapido", label := "Rapido HF" },
          { id := "bambulab", label := "Bambulab" },
          { id := "chube-compact", label := "Chube Compact" },
          { id := "revo-voron", label := "Revo Voron" },
          { id := "revolcano", label := "ReVolcano" },
          { id := "nf-crazy", label := "NF-Crazy" },
          { id := "tz-v6-stock", label := "TZ-V6-2.0 (Stock Nozzle)" },
          { id := "tz-v6-v6", label := "TZ-V6-2.0 (V6 Nozzle)" },
          { id := "dragon-uhf", label := "Dragon UHF", noExtruderAdapter := true },
          { id := "dragon-ace-mze", label := "Dragon Ace + MZE", noExtruderAdapter := true },
          { id := "dragon-ace-volcano-mze", label := "Dragon Ace Volcano + MZE",
            noExtruderAdapter := true },
          { id := "rapido-uhf", label := "Rapido UHF", noExtruderAdapter := true } ] }),
    ("extruder",
     { label := "Extruder",
       options :=
        [ { id := "wwbmg", label := "Wrist Watch BMG for A4T", isDefault := true },
          { id := "sherpa-mini", label := "Sherpa Mini" },
          { id := "wwg2", label := "Wrist Watch G2" },
          { id := "orbiter", label := "Orbiter 2.0" },
          { id := "lgx-lite", label := "LGX Lite" },
          { id := "vz-hextrudort", label := "VZ-Hextrudort" } ] }),
    ("filamentCutter",
     { label := "Filament Cutter",
       options :=
        [ { id := "none", label := "None", isDefault := true },
          { id := "crossbow", label := "Crossbow Cutter" } ] }) ]

/-- The compatibility rule table of partsManifest.js (`compatibility`). -/
def a4tCompatibility : List (String × CompatRule) :=
  [ ("sherpa-mini",
     { incompatibleWith := some
        [ ("hotend",
           [vs "dragon-uhf", vs "dragon-ace-mze", vs "dragon-ace-volcano-mze", vs "rapido-uhf"]),
          ("filamentCutter", [vs "crossbow"]) ],
       noExtruderAdapter := true,
       warningMessage := "Sherpa-Mini is not supported with UHF hotends or Crossbow cutter" }),
    ("wwg2", { requiresSpacing := true }),
    ("orbiter", { requiresSpacing := true }),
    ("dragon-uhf",
     { compatibleExtruders := some ["wwbmg", "wwg2", "orbiter"], noExtruderAdapter := true }),
    ("dragon-ace-mze",
     { compatibleExtruders := some ["wwbmg", "wwg2", "orbiter"], noExtruderAdapter := true }),
    ("dragon-ace-volcano-mze",
     { compatibleExtruders := some ["wwbmg", "wwg2", "orbiter"], noExtruderAdapter := true }),
    ("rapido-uhf",
     { compatibleExtruders := some ["wwbmg", "wwg2", "orbiter"], noExtruderAdapter := true }) ]

/-- The renderable part categories of partsManifest.js (`parts`), in
manifest insertion order. -/
def a4tParts : List (String × Category) :=
  [ ("carriages",
     { category := "Carriage",
       variants :=
        [ ("carriage-xol",
           { file := "Carriages/Xol-Carriage",
             requires := some [("carriage", vs "xol-carriage")] }),
          ("carriage-tap",
           { file := "Carriages/Tap",
             requires := some [("carriage", vs "cw2-tap")] }) ] }),
    ("wwbmg",
     { category := "WW-BMG",
       variants :=
        [ ("wwbmg-no-sensors",
           { file := "WW-BMG/A4T - WW-BMG",
             requires := some [("extruder", vs "wwbmg"), ("wwbmgSensors", vs "no-sensors")],
             excludeIf := some [("filamentCutter", [vs "crossbow"])] }),
          ("wwbmg-no-sensors-crossbow",
           { file := "WW-BMG/A4T - WW-BMG - Crossbow",
             requires := some [("extruder", vs "wwbmg"), ("wwbmgSensors", vs "no-sensors"),
                               ("filamentCutter", vs "crossbow")] }),
          ("wwbmg-sensor",
           { file := "WW-BMG/A4T - WW-BMG - Sensor",
             requires := some [("extruder", vs "wwbmg")],
             requiresAny := some [("wwbmgSensors", [vs "single-sensor", vs "dual-sensors"])],
             excludeIf := some [("filamentCutter", [vs "crossbow"])] }),
          ("wwbmg-sensor-crossbow",
           { file := "WW-BMG/A4T - WW-BMG - Sensor - Crossbow",
             requires := some [("extruder", vs "wwbmg"), ("filamentCutter", vs "crossbow")],
             requiresAny := some [("wwbmgSensors", [vs "single-sensor", vs "dual-sensors"])] }) ] }),
    ("cowlings",
     { category := "Cowling",
       variants :=
        [ ("cowling-dragon-rapido-xol",
           { file := "Cowlings/A4T Cowling - Dragon_Rapido [xol-carriage]",
             requires := some [("carriage", vs "xol-carriage")],
             requiresAny := some
              [ ("hotend", [vs "dragon", vs "dragon-ace", vs "dragon-uhf-mini",
                            vs "dragon-ace-volcano", vs "rapido"]) ],
             excludeIf := some [("extruder", [vs "wwg2", vs "orbiter"])] }),
          ("cowling-dragon-rapido-xol-g2",
           { file := "Cowlings/A4T Cowling - Dragon_Rapido - G2-Orbiter spacing [xol-carriage]",
             requires := some [("carriage", vs "xol-carriage")],
             requiresAny := some
              [ ("hotend", [vs "dragon", vs "dragon-ace", vs "dragon-uhf-mini",
                            vs "dragon-ace-volcano", vs "rapido"]),
                ("extruder", [vs "wwg2", vs "orbiter"]) ] }),
          ("cowling-dragon-rapido-cw2",
           { file := "Cowlings/A4T Cowling - Dragon_Rapido [cw2-tap]",
             requires := some [("carriage", vs "cw2-tap")],
             requiresAny := some
              [ ("hotend", [vs "dragon", vs "dragon-ace", vs "dragon-uhf-mini",
                            vs "dragon-ace-volcano", vs "rapido"]) ],
             excludeIf := some [("extruder", [vs "wwg2", vs "orbiter"])] }),
          ("cowling-dragon-rapido-cw2-g2",
           { file := "Cowlings/A4T Cowling - Dragon_Rapido - G2-Orbiter spacing [cw2-tap]",
             requires := some [("carriage", vs "cw2-tap")],
             requiresAny := some
              [ ("hotend", [vs "dragon", vs "dragon-ace", vs "dragon-uhf-mini",
                            vs "dragon-ace-volcano", vs "rapido"]),
                ("extruder", [vs "wwg2", vs "orbiter"]) ] }),
          ("cowling-dragon-uhf-xol",
           { file := "Cowlings/A4T Cowling - Dragon-Rapido UHF [xol-carriage]",
             requires := some [("carriage", vs "xol-carriage")],
             requiresAny := some
              [ ("hotend", [vs "dragon-uhf", vs "dragon-ace-mze",
                            vs "dragon-ace-volcano-mze", vs "rapido-uhf"]) ],
             excludeIf := some
              [ ("extruder", [vs "wwg2", vs "orbiter", vs "lgx-lite",
                              vs "vz-hextrudort", vs "sherpa-mini"]) ] }),
          ("cowling-dragon-uhf-xol-g2",
           { file := "Cowlings/A4T Cowling - Dragon-Rapido UHF - G2-Orb Spacing [xol-carriage]",
             requires := some [("carriage", vs "xol-carriage")],
             requiresAny := some
              [ ("hotend", [vs "dragon-uhf", vs "dragon-ace-mze",
                            vs "dragon-ace-volcano-mze", vs "rapido-uhf"]),
                ("extruder", [vs "wwg2", vs "orbiter"]) ] }),
          ("cowling-dragon-uhf-cw2",
           { file := "Cowlings/A4T Cowling - Dragon-Rapido UHF [cw2-tap]",
             requires := some [("carriage", vs "cw2-tap")],
             requiresAny := some
              [ ("hotend", [vs "dragon-uhf", vs "dragon-ace-mze",
                            vs "dragon-ace-volcano-mze", vs "rapido-uhf"]) ],
             excludeIf := some
              [ ("extruder", [vs "wwg2", vs "orbiter", vs "lgx-lite",
                              vs "vz-hextrudort", vs "sherpa-mini"]) ] }),
          ("cowling-dragon-uhf-cw2-g2",
           { file := "Cowlings/A4T Cowling - Dragon-Rapido UHF - G2-Orb Spacing [cw2-tap]",
             requires := some [("carriage", vs "cw2-tap")],
             requiresAny := some
              [ ("hotend", [vs "dragon-uhf", vs "dragon-ace-mze",
                            vs "dragon-ace-volcano-mze", vs "rapido-uhf"]),
                ("extruder", [vs "wwg2", vs "orbiter"]) ] }),
          ("cowling-bambulab-xol",
           { file := "Cowlings/A4T Cowling - Bambulab [xol-carriage]",
             requires := some [("carriage", vs "xol-carriage"), ("hotend", vs "bambulab")],
             excludeIf := some [("extruder", [vs "wwg2", vs "orbiter"])] }),
          ("cowling-bambulab-xol-g2",
           { file := "Cowlings/A4T Cowling - Bambulab - G2-Orbiter spacing [xol-carriage]",
             requires := some [("carriage", vs "xol-carriage"), ("hotend", vs "bambulab")],
             requiresAny := some [("extruder", [vs "wwg2", vs "orbiter"])] }),
          ("cowling-bambulab-cw2",
           { file := "Cowlings/A4T Cowling - Bambulab [cw2-tap]",
             requires := some [("carriage", vs "cw2-tap"), ("hotend", vs "bambulab")],
             excludeIf := some [("extruder", [vs "wwg2", vs "orbiter"])] }),
          ("cowling-bambulab-cw2-g2",
           { file := "Cowlings/A4T Cowling - Bambulab - G2-Orbiter spacing [cw2-tap]",
             requires := some [("carriage", vs "cw2-tap"), ("hotend", vs "bambulab")],
             requiresAny := some [("extruder", [vs "wwg2", vs "orbiter"])] }),
          ("cowling-chube-xol",
           { file := "Cowlings/A4T Cowling - Chube-Compact [xol-carriage]",
             requires := some [("carriage", vs "xol-carriage"), ("hotend", vs "chube-compact")],
             excludeIf := some [("extruder", [vs "wwg2", vs "orbiter"])] }),
          ("cowling-chube-xol-g2",
           { file := "Cowlings/A4T Cowling - Chube-Compact - G2-Orbiter spacing [xol-carriage]",
             requires := some [("carriage", vs "xol-carriage"), ("hotend", vs "chube-compact")],
             requiresAny := some [("extruder", [vs "wwg2", vs "orbiter"])] }),
          ("cowling-chube-cw2",
           { file := "Cowlings/A4T Cowling - Chube-Compact [cw2-tap]",
             requires := some [("carriage", vs "cw2-tap"), ("hotend", vs "chube-compact")],
             excludeIf := some [("extruder", [vs "wwg2", vs "orbiter"])] }),
          ("cowling-chube-cw2-g2",
           { file := "Cowlings/A4T Cowling - Chube-Compact - G2-Orbiter spacing [cw2-tap]",
             requires := some [("carriage", vs "cw2-tap"), ("hotend", vs "chube-compact")],
             requiresAny := some [("extruder", [vs "wwg2", vs "orbiter"])] }),
          ("cowling-revo-xol",
           { file := "Cowlings/A4T Cowling - Revo-Voron [xol-carriage]",
             requires := some [("carriage", vs "xol-carriage"), ("hotend", vs "revo-voron")],
             excludeIf := some [("extruder", [vs "wwg2", vs "orbiter"])] }),
          ("cowling-revo-xol-g2",
           { file := "Cowlings/A4T Cowling - Revo-Voron - G2-Orbiter spacing [xol-carriage]",
             requires := some [("carriage", vs "xol-carriage"), ("hotend", vs "revo-voron")],
             requiresAny := some [("extruder", [vs "wwg2", vs "orbiter"])] }),
          ("cowling-revo-cw2",
           { file := "Cowlings/A4T Cowling - Revo-Voron [cw2-tap]",
             requires := some [("carriage", vs "cw2-tap"), ("hotend", vs "revo-voron")],
             excludeIf := some [("extruder", [vs "wwg2", vs "orbiter"])] }),
          ("cowling-revo-cw2-g2",
           { file := "Cowlings/A4T Cowling - Revo-Voron - G2-Orbiter spacing [cw2-tap]",
             requires := some [("carriage", vs "cw2-tap"), ("hotend", vs "revo-voron")],
             requiresAny := some [("extruder", [vs "wwg2", vs "orbiter"])] }),
          ("cowling-revolcano-xol",
           { file := "Cowlings/A4T Cowling - ReVolcano [xol-carriage]",
             requires := some [("carriage", vs "xol-carriage"), ("hotend", vs "revolcano")],
             excludeIf := some [("extruder", [vs "wwg2", vs "orbiter"])] }),
          ("cowling-revolcano-xol-g2",
           { file := "Cowlings/A4T Cowling - ReVolcano - G2-Orbiter spacing [xol-carriage]",
             requires := some [("carriage", vs "xol-carriage"), ("hotend", vs "revolcano")],
             requiresAny := some [("extruder", [vs "wwg2", vs "orbiter"])] }),
          ("cowling-revolcano-cw2",
           { file := "Cowlings/A4T Cowling - ReVolcano [cw2-tap]",
             requires := some [("carriage", vs "cw2-tap"), ("hotend", vs "revolcano")],
             excludeIf := some [("extruder", [vs "wwg2", vs "orbiter"])] }),
          ("cowling-revolcano-cw2-g2",
           { file := "Cowlings/A4T Cowling - ReVolcano - G2-Orbiter spacing [cw2-tap]",
             requires := some [("carriage", vs "cw2-tap"), ("hotend", vs "revolcano")],
             requiresAny := some [("extruder", [vs "wwg2", vs "orbiter"])] }),
          ("cowling-nfcrazy-xol",
           { file := "Cowlings/A4T Cowling - NF-Crazy [xol-carriage]",
             requires := some [("carriage", vs "xol-carriage"), ("hotend", vs "nf-crazy")],
             excludeIf := some [("extruder", [vs "wwg2", vs "orbiter"])] }),
          ("cowling-nfcrazy-xol-g2",
           { file := "Cowlings/A4T Cowling - NF-Crazy - G2-Orbiter spacing [xol-carriage]",
             requires := some [("carriage", vs "xol-carriage"), ("hotend", vs "nf-crazy")],
             requiresAny := some [("extruder", [vs "wwg2", vs "orbiter"])] }),
          ("cowling-nfcrazy-cw2",
           { file := "Cowlings/A4T Cowling - NF-Crazy [cw2-tap]",
             requires := some [("carriage", vs "cw2-tap"), ("hotend", vs "nf-crazy")],
             excludeIf := some [("extruder", [vs "wwg2", vs "orbiter"])] }),
          ("cowling-nfcrazy-cw2-g2",
           { file := "Cowlings/A4T Cowling - NF-Crazy - G2-Orbiter spacing [cw2-tap]",
             requires := some [("carriage", vs "cw2-tap"), ("hotend", vs "nf-crazy")],
             requiresAny := some [("extruder", [vs "wwg2", vs "orbiter"])] }),
          ("cowling-tzv6-xol",
           { file := "Cowlings/A4T Cowling - TZ-V6-2.0 [xol-carriage]",
             requires := some [("carriage", vs "xol-carriage")],
             requiresAny := some [("hotend", [vs "tz-v6-stock", vs "tz-v6-v6"])],
             excludeIf := some [("extruder", [vs "wwg2", vs "orbiter"])] }),
          ("cowling-tzv6-xol-g2",
           { file := "Cowlings/A4T Cowling - TZ-V6-2.0 - G2-Orbiter spacing [xol-carriage]",
             requires := some [("carriage", vs "xol-carriage")],
             requiresAny := some
              [ ("hotend", [vs "tz-v6-stock", vs "tz-v6-v6"]),
                ("extruder", [vs "wwg2", vs "orbiter"]) ] }),
          ("cowling-tzv6-cw2",
           { file := "Cowlings/A4T Cowling - TZ-V6-2.0 [cw2-tap]",
             requires := some [("carriage", vs "cw2-tap")],
             requiresAny := some [("hotend", [vs "tz-v6-stock", vs "tz-v6-v6"])],
             excludeIf := some [("extruder", [vs "wwg2", vs "orbiter"])] }),
          ("cowling-tzv6-cw2-g2",
           { file := "Cowlings/A4T Cowling - TZ-V6-2.0 - G2-Orbiter spacing [cw2-tap]",
             requires := some [("carriage", vs "cw2-tap")],
             requiresAny := some
              [ ("hotend", [vs "tz-v6-stock", vs "tz-v6-v6"]),
                ("extruder", [vs "wwg2", vs "orbiter"]) ] }) ] }),
    ("hotendDucts",
     { category := "Hotend Fan Duct",
       variants :=
        [ ("duct-dragon",
           { file := "Hotend Fan Ducts/A4T HE Fan Duct - Dragon",
             requiresAny := some
              [ ("hotend", [vs "dragon", vs "dragon-ace", vs "dragon-uhf-mini",
                            vs "dragon-ace-volcano"]) ] }),
          ("duct-rapido",
           { file := "Hotend Fan Ducts/A4T HE Fan Duct - Rapido",
             requires := some [("hotend", vs "rapido")] }),
          ("duct-dragon-uhf",
           { file := "Hotend Fan Ducts/A4T HE Fan Duct - Dragon",
             requiresAny := some
              [ ("hotend", [vs "dragon-uhf", vs "dragon-ace-mze",
                            vs "dragon-ace-volcano-mze"]) ] }),
          ("duct-rapido-uhf",
           { file := "Hotend Fan Ducts/A4T HE Fan Duct - Rapido",
             requires := some [("hotend", vs "rapido-uhf")] }),
          ("duct-bambulab",
           { file := "Hotend Fan Ducts/A4T HE Duct - Bambulab",
             requires := some [("hotend", vs "bambulab")] }),
          ("duct-chube",
           { file := "Hotend Fan Ducts/A4T HE Duct - Chube-Compact",
             requires := some [("hotend", vs "chube-compact")] }),
          ("duct-revo",
           { file := "Hotend Fan Ducts/A4T HE Duct - Revo-Voron",
             requires := some [("hotend", vs "revo-voron")] }),
          ("duct-revolcano",
           { file := "Hotend Fan Ducts/A4T HE Duct - ReVolcano",
             requires := some [("hotend", vs "revolcano")] }),
          ("duct-nfcrazy",
           { file := "Hotend Fan Ducts/A4T HE Duct - NF-Crazy",
             requires := some [("hotend", vs "nf-crazy")] }),
          ("duct-tzv6-stock",
           { file := "Hotend Fan Ducts/A4T HE Duct - TZ-V6-2.0 [Stock Nozzle]",
             requires := some [("hotend", vs "tz-v6-stock")] }),
          ("duct-tzv6-v6",
           { file := "Hotend Fan Ducts/A4T HE Duct - TZ-V6-2.0 [V6 Nozzle]",
             requires := some [("hotend", vs "tz-v6-v6")] }) ] }),
    ("hotendSpacers",
     { category := "Hotend Spacer",
       variants :=
        [ ("spacer-tzv6-stock",
           { file := "Hotend Fan Ducts/A4T HE Duct - TZ-V6-2.0 [Stock Nozzle] - Spacer",
             requires := some [("hotend", vs "tz-v6-stock")] }) ] }),
    ("extruderAdapters",
     { category := "Extruder Adapter",
       variants :=
        [ ("adapter-wwbmg-xol",
           { file := "Extruder Adapters/A4T - WWBMG - Extruder Adapter [xol-carriage]",
             requires := some [("carriage", vs "xol-carriage"), ("extruder", vs "wwbmg")],
             excludeIf := some [("filamentCutter", [vs "crossbow"])] }),
          ("adapter-wwbmg-cw2",
           { file := "Extruder Adapters/A4T - WWBMG - Extruder Adapter [cw2-tap]",
             requires := some [("carriage", vs "cw2-tap"), ("extruder", vs "wwbmg")],
             excludeIf := some [("filamentCutter", [vs "crossbow"])] }),
          ("adapter-wwg2-xol",
           { file := "Extruder Adapters/A4T - WWG2 - Extruder Adapter [xol-carriage]",
             requires := some [("carriage", vs "xol-carriage"), ("extruder", vs "wwg2")],
             excludeIf := some [("filamentCutter", [vs "crossbow"])] }),
          ("adapter-wwg2-cw2",
           { file := "Extruder Adapters/A4T - WWG2 - Extruder Adapter [cw2-tap]",
             requires := some [("carriage", vs "cw2-tap"), ("extruder", vs "wwg2")],
             excludeIf := some [("filamentCutter", [vs "crossbow"])] }),
          ("adapter-orbiter-xol",
           { file := "Extruder Adapters/A4T - Orbiter - Extruder Adapter [xol-carriage]",
             requires := some [("carriage", vs "xol-carriage"), ("extruder", vs "orbiter")],
             excludeIf := some [("filamentCutter", [vs "crossbow"])] }),
          ("adapter-orbiter-cw2",
           { file := "Extruder Adapters/A4T - Orbiter - Extruder Adapter [cw2-tap]",
             requires := some [("carriage", vs "cw2-tap"), ("extruder", vs "orbiter")],
             excludeIf := some [("filamentCutter", [vs "crossbow"])] }),
          ("adapter-lgx-xol",
           { file := "Extruder Adapters/A4T - LGX-L_VZHex Adapter [xol-carriage]",
             requires := some [("carriage", vs "xol-carriage")],
             requiresAny := some [("extruder", [vs "lgx-lite", vs "vz-hextrudort"])],
             excludeIf := some [("filamentCutter", [vs "crossbow"])] }),
          ("adapter-lgx-cw2",
           { file := "Extruder Adapters/A4T - LGX-L_VZHex Adapter [cw2-tap]",
             requires := some [("carriage", vs "cw2-tap")],
             requiresAny := some [("extruder", [vs "lgx-lite", vs "vz-hextrudort"])],
             excludeIf := some [("filamentCutter", [vs "crossbow"])] }),
          ("crossbow-wwbmg",
           { file := "Extruder Adapters/Crossbow cutter holder - WW-BMG (Sherpa-Mini spacing)",
             stlPath := some "Extruder Adapters/For Crossbow filament cutter/Crossbow cutter holder - WW-BMG (Sherpa-Mini spacing).stl",
             requires := some [("extruder", vs "wwbmg"), ("filamentCutter", vs "crossbow")] }),
          ("crossbow-wwg2",
           { file := "Extruder Adapters/Crossbow cutter holder - WW-G2 (Oribiter2 Spacing)",
             stlPath := some "Extruder Adapters/For Crossbow filament cutter/Crossbow cutter holder - WW-G2 (Oribiter2 Spacing).stl",
             requires := some [("extruder", vs "wwg2"), ("filamentCutter", vs "crossbow")] }),
          ("crossbow-orbiter",
           { file := "Extruder Adapters/Crossbow cutter holder - Orbiter2",
             stlPath := some "Extruder Adapters/For Crossbow filament cutter/Crossbow cutter holder - Orbiter2.stl",
             requires := some [("extruder", vs "orbiter"), ("filamentCutter", vs "crossbow")] }),
          ("crossbow-lgx",
           { file := "Extruder Adapters/Crossbow cutter holder - LGX-L_VZHex",
             stlPath := some "Extruder Adapters/For Crossbow filament cutter/Crossbow cutter holder - LGX-L_VZHex.stl",
             requiresAny := some [("extruder", [vs "lgx-lite", vs "vz-hextrudort"])],
             requires := some [("filamentCutter", vs "crossbow")] }),
          ("crossbow-assembly",
           { file := "Extruder Adapters/CrossbowAssembly",
             requires := some [("filamentCutter", vs "crossbow")],
             visualOnly := true }) ] }) ]

/-- The download-only part categories of partsManifest.js (`stlOnlyParts`). -/
def a4tStlOnlyParts : List (String × Category) :=
  [ ("backflowInhibitors",
     { category := "Backflow Inhibitors",
       variants :=
        [ ("backflow-inhibitor",
           { stlFile := "Backflow Inhibitors/A4T Backflow Inhibitor [x2].stl",
             requires := some [] }),
          ("backflow-install-tool",
           { stlFile := "Backflow Inhibitors/A4T Backflow Inhibitor install spacer tool.stl",
             requires := some [] }) ] }),
    ("ledHolderFilter",
     { category := "LED Holder + Filter",
       variants :=
        [ ("led-carrier",
           { stlFile := "LED Holder + Filter/A4T LED Carrier.stl",
             requires := some [] }),
          ("led-diffuser",
           { stlFile := "LED Holder + Filter/A4T LED Diffuser[translucent].stl",
             requires := some [] }),
          ("led-filter",
           { stlFile := "LED Holder + Filter/A4T LED Filter[opaque].stl",
             requires := some [] }) ] }),
    ("toolheadBoardMounts",
     { category := "Toolhead Board Mount",
       variants :=
        [ ("thb-wwbmg-ebb36",
           { stlFile := "Toolhead Board Mounts/A4T - THB Mount - WWBMG.stl",
             requires := some [("extruder", vs "wwbmg"), ("toolheadBoard", vs "ebb36-sht36v2"),
                               ("carriage", vs "xol-carriage")] }),
          ("thb-wwg2-ebb36",
           { stlFile := "Toolhead Board Mounts/A4T - THB Mount - WWG2.stl",
             requires := some [("extruder", vs "wwg2"), ("toolheadBoard", vs "ebb36-sht36v2"),
                               ("carriage", vs "xol-carriage")] }),
          ("thb-sherpa-ebb36",
           { stlFile := "Toolhead Board Mounts/A4T - THB Mount - Sherpa-Mini.stl",
             requires := some [("extruder", vs "sherpa-mini"), ("toolheadBoard", vs "ebb36-sht36v2"),
                               ("carriage", vs "xol-carriage")] }),
          ("thb-lgx-ebb36",
           { stlFile := "Toolhead Board Mounts/A4T - THB Mount - LGX-L.stl",
             requires := some [("extruder", vs "lgx-lite"), ("toolheadBoard", vs "ebb36-sht36v2"),
                               ("carriage", vs "xol-carriage")] }),
          ("thb-vzhex-ebb36",
           { stlFile := "Toolhead Board Mounts/A4T - THB Mount - VZ-Hex.stl",
             requires := some [("extruder", vs "vz-hextrudort"), ("toolheadBoard", vs "ebb36-sht36v2"),
                               ("carriage", vs "xol-carriage")] }),
          ("thb-wwbmg-h36",
           { stlFile := "Toolhead Board Mounts/A4T - THB Mount - WWBMG - H36.stl",
             requires := some [("extruder", vs "wwbmg"), ("toolheadBoard", vs "h36"),
                               ("carriage", vs "xol-carriage")] }),
          ("thb-wwbmg-nh36",
           { stlFile := "Toolhead Board Mounts/A4T - THB Mount - WWBMG - NH36.STL",
             requires := some [("extruder", vs "wwbmg"), ("toolheadBoard", vs "nh36"),
                               ("carriage", vs "xol-carriage")] }),
          ("thb-wwbmg-sht36v3",
           { stlFile := "Toolhead Board Mounts/A4T - THB Mount - WWBMG SHT36v3.stl",
             requires := some [("extruder", vs "wwbmg"), ("toolheadBoard", vs "sht36v3"),
                               ("carriage", vs "xol-carriage")] }),
          ("thb-wwbmg-xolpcb",
           { stlFile := "Toolhead Board Mounts/A4T - Xol_PCB Mount - WWBMG.stl",
             requires := some [("extruder", vs "wwbmg"), ("toolheadBoard", vs "xol-pcb"),
                               ("carriage", vs "xol-carriage")] }),
          ("thb-orbiter-xolpcb",
           { stlFile := "Toolhead Board Mounts/A4T - Xol_PCB Mount - Orbiter v2.0.stl",
             requires := some [("extruder", vs "orbiter"), ("toolheadBoard", vs "xol-pcb"),
                               ("carriage", vs "xol-carriage")] }) ] }),
    ("wwbmgExtruder",
     { category := "Extruder",
       variants :=
        [ ("wwbmg-nosensor-main",
           { stlFile := "WW-BMG for A4T/Standard (no sensor)/A4T - WWBMG - Main_Body [Sherpa-Mini spacing].stl",
             requires := some [("extruder", vs "wwbmg"), ("wwbmgSensors", vs "no-sensors")],
             excludeIf := some [("filamentCutter", [vs "crossbow"])] }),
          ("wwbmg-nosensor-motor",
           { stlFile := "WW-BMG for A4T/Standard (no sensor)/A4T - WWBMG - Motor Plate.stl",
             requires := some [("extruder", vs "wwbmg"), ("wwbmgSensors", vs "no-sensors")],
             excludeIf := some [("filamentCutter", [vs "crossbow"])] }),
          ("wwbmg-nosensor-crossbow-main",
           { stlFile := "WW-BMG for A4T/Standard (no sensor)/A4T - WWBMG - Main_Body [Sherpa-Mini spacing] - Crossbow.stl",
             requires := some [("extruder", vs "wwbmg"), ("wwbmgSensors", vs "no-sensors"),
                               ("filamentCutter", vs "crossbow")] }),
          ("wwbmg-nosensor-crossbow-motor",
           { stlFile := "WW-BMG for A4T/Standard (no sensor)/A4T - WWBMG - Motor Plate.stl",
             requires := some [("extruder", vs "wwbmg"), ("wwbmgSensors", vs "no-sensors"),
                               ("filamentCutter", vs "crossbow")] }),
          ("wwbmg-single-main",
           { stlFile := "WW-BMG for A4T/Single Sensor/A4T - WWBMG - Main_Body [Sherpa-Mini spacing] Single Sensor.stl",
             requires := some [("extruder", vs "wwbmg"), ("wwbmgSensors", vs "single-sensor")],
             excludeIf := some [("filamentCutter", [vs "crossbow"])] }),
          ("wwbmg-single-motor",
           { stlFile := "WW-BMG for A4T/Single Sensor/A4T - WWBMG - Motor_Plate - Single Sensor.stl",
             requires := some [("extruder", vs "wwbmg"), ("wwbmgSensors", vs "single-sensor")],
             excludeIf := some [("filamentCutter", [vs "crossbow"])] }),
          ("wwbmg-single-crossbow-main",
           { stlFile := "WW-BMG for A4T/Single Sensor/A4T - WWBMG - Main_Body [Sherpa-Mini spacing] Single Sensor - Crossbow.stl",
             requires := some [("extruder", vs "wwbmg"), ("wwbmgSensors", vs "single-sensor"),
                               ("filamentCutter", vs "crossbow")] }),
          ("wwbmg-single-crossbow-motor",
           { stlFile := "WW-BMG for A4T/Single Sensor/A4T - WWBMG - Motor_Plate - Single Sensor.stl",
             requires := some [("extruder", vs "wwbmg"), ("wwbmgSensors", vs "single-sensor"),
                               ("filamentCutter", vs "crossbow")] }),
          ("wwbmg-dual-main",
           { stlFile := "WW-BMG for A4T/Dual Sensor/A4T - WWBMG - Main_Body [Sherpa-Mini spacing] Dual Sensor.stl",
             requires := some [("extruder", vs "wwbmg"), ("wwbmgSensors", vs "dual-sensors")],
             excludeIf := some [("filamentCutter", [vs "crossbow"])] }),
          ("wwbmg-dual-motor",
           { stlFile := "WW-BMG for A4T/Dual Sensor/A4T - WWBMG - Motor_Plate - Dual Sensor.stl",
             requires := some [("extruder", vs "wwbmg"), ("wwbmgSensors", vs "dual-sensors")],
             excludeIf := some [("filamentCutter", [vs "crossbow"])] }),
          ("wwbmg-dual-crossbow-main",
           { stlFile := "WW-BMG for A4T/Dual Sensor/A4T - WWBMG - Main_Body [Sherpa-Mini spacing] Dual Sensor - Crossbow.stl",
             requires := some [("extruder", vs "wwbmg"), ("wwbmgSensors", vs "dual-sensors"),
                               ("filamentCutter", vs "crossbow")] }),
          ("wwbmg-dual-crossbow-motor",
           { stlFile := "WW-BMG for A4T/Dual Sensor/A4T - WWBMG - Motor_Plate - Dual Sensor.stl",
             requires := some [("extruder", vs "wwbmg"), ("wwbmgSensors", vs "dual-sensors"),
                               ("filamentCutter", vs "crossbow")] }),
          ("wwbmg-tensionarm-smooth",
           { stlFile := "WW-BMG for A4T/Tension Arm/A4T - WWBMG - Beefy_Tension_Arm - Smooth_Idler.stl",
             requires := some [("extruder", vs "wwbmg"), ("wwbmgIdler", vs "smooth-bearing")] }),
          ("wwbmg-tensionarm-bmg",
           { stlFile := "WW-BMG for A4T/Tension Arm/A4T - WWBMG - Beefy_Tension_Arm - BMG_Idler.stl",
             requires := some [("extruder", vs "wwbmg"), ("wwbmgIdler", vs "bmg-dual-drive")] }) ] }) ]

/-- The embedded partsManifest.js manifest. -/
def a4tManifest : Manifest :=
  { configOptions := a4tConfigOptions,
    compatibility := a4tCompatibility,
    parts := a4tParts,
    stlOnlyParts := a4tStlOnlyParts }

/-- A matching variant joined with its owning category id and label
(the object pushed by `getMatchingParts` / `getMatchingStlOnlyParts`). -/
structure ResolvedPart where
  id : String
  category : String
  categoryLabel : String
  part : PartVariant
deriving DecidableEq, Repr

/-- The part resolver (`getMatchingParts`, app.js:375-408): looks up the
compatibility rules for the selected extruder and hotend; if either carries
`noExtruderAdapter === true` the whole `extruderAdapters` category is
skipped; every other category contributes its variants that pass
`partMatchesConfig`, in manifest insertion order. -/
def getMatchingParts (m : Manifest) (config : Config) : List ResolvedPart :=
  let extruderRule := compatLookup m (config "extruder")
  let skipExtruderAdapterForExtruder :=
    (extruderRule.map CompatRule.noExtruderAdapter).getD false
  let hotendRule := compatLookup m (config "hotend")
  let skipExtruderAdapterForHotend :=
    (hotendRule.map CompatRule.noExtruderAdapter).getD false
  let skipExtruderAdapter := skipExtruderAdapterForExtruder || skipExtruderAdapterForHotend
  m.parts.flatMap (fun cat =>
    if skipExtruderAdapter && cat.1 == "extruderAdapters" then
      []
    else
      (cat.2.variants.filter (fun pv => partMatchesConfig pv.2 config)).map
        (fun pv =>
          { id := pv.1, category := cat.1, categoryLabel := cat.2.category, part := pv.2 }))

/-- The download-only resolver (`getMatchingStlOnlyParts`, app.js:413-432):
no skip rule, every `stlOnlyParts` category contributes its matching
variants. -/
def getMatchingStlOnlyParts (m : Manifest) (config : Config) : List ResolvedPart :=
  m.stlOnlyParts.flatMap (fun cat =>
    (cat.2.variants.filter (fun pv => partMatchesConfig pv.2 config)).map
      (fun pv =>
        { id := pv.1, category := cat.1, categoryLabel := cat.2.category, part := pv.2 }))

/-- The warning checker (`checkCompatibility`, app.js:437-451): it consults
the compatibility rule of the selected EXTRUDER only; for each
(axis, forbidden set) pair of that rule's `incompatibleWith` map whose axis
value is currently forbidden, the rule's warning message is pushed. -/
def checkCompatibility (m : Manifest) (config : Config) : List String :=
  let warnings : List String := []
  match compatLookup m (config "extruder") with
  | none => warnings
  | some extruderRule =>
      (extruderRule.incompatibleWith.getD []).foldl
        (fun ws p => if memberOk config p then ws ++ [extruderRule.warningMessage] else ws)
        warnings

/-- The warnings one rule contributes, phrased as in the specification: one
copy of the rule's message per (axis, forbidden set) pair whose axis value
is in the forbidden set. -/
def ruleWarnings (config : Config) : Option CompatRule → List String
  | none => []
  | some rule =>
      ((rule.incompatibleWith.getD []).filter (fun p => memberOk config p)).map
        (fun _ => rule.warningMessage)

/-- The warning checker as the specification describes it: consult the rule
for the selected extruder id AND, separately, the rule for the selected
hotend id, appending each rule's triggered warnings. -/
def specCheckCompatibility (m : Manifest) (config : Config) : List String :=
  ruleWarnings config (compatLookup m (config "extruder")) ++
    ruleWarnings config (compatLookup m (config "hotend"))

/-! ### JavaScript string operations on paths, as `List Char` functions -/

/-- JavaScript `s.split(sep)` for a one-character separator. -/
def jsSplitOnChar (sep : Char) : List Char → List (List Char)
  | [] => [[]]
  | c :: cs =>
      if c = sep then
        [] :: jsSplitOnChar sep cs
      else
        match jsSplitOnChar sep cs with
        | [] => [[c]]
        | g :: gs => (c :: g) :: gs

/-- JavaScript `s.replace(pat, repl)` — it replaces only the FIRST occurrence
of a plain-string pattern (and returns the string unchanged when the
pattern does not occur). -/
def jsReplaceFirst (pat repl : List Char) : List Char → List Char
  | [] => []
  | c :: cs =>
      if pat.isPrefixOf (c :: cs) then
        repl ++ (c :: cs).drop pat.length
      else
        c :: jsReplaceFirst pat repl cs

/-- Does `pat` occur as a contiguous substring? -/
def hasSubstr (pat : List Char) : List Char → Bool
  | [] => pat.isEmpty
  | c :: cs => pat.isPrefixOf (c :: cs) || hasSubstr pat cs

/-- A resolved output artifact of `downloadParts` (app.js:904-944): the
object literals `{ path, isStl, isCowling?, is3mf? }`; a field a literal
omits is JavaScript-falsy and is embedded as `false`. -/
structure FileDescriptor where
  path : List Char
  isStl : Bool := false
  isCowling : Bool := false
  is3mf : Bool := false
deriving DecidableEq, Repr

/-- The cosmetic-variant rewrite applied per file inside `downloadParts`
(app.js:929-943): a cowling file's name (last path segment) loses its
`.stl` extension, gains the fixed `Hex ` prefix and the `.3mf` extension,
and moves to the fixed `Cowlings [Hexagon multi-colour]/` directory; any
non-cowling file passes through unchanged. -/
def hexTransformFile (file : FileDescriptor) : FileDescriptor :=
  if file.isCowling then
    let fileName := (jsSplitOnChar '/' file.path).getLastD []
    let baseName := jsReplaceFirst ".stl".toList [] fileName
    let hexFileName := "Hex ".toList ++ baseName ++ ".3mf".toList
    { path := "Cowlings [Hexagon multi-colour]/".toList ++ hexFileName,
      isStl := false, is3mf := true }
  else
    file

/-- The file descriptor derived from one rendered part (the `map` body of
`renderedFiles` in `downloadParts`, app.js:914-923): an explicit `stlPath`
is used verbatim; otherwise the model path drops a `.glb` extension and
gains `.stl` unless it already ends with it, and the descriptor is marked
as a cowling when the part's category is `cowlings`. -/
def renderedFileOf (p : ResolvedPart) : FileDescriptor :=
  match p.part.stlPath with
  | some sp => { path := sp.toList, isStl := true }
  | none =>
      let baseName := jsReplaceFirst ".glb".toList [] p.part.file.toList
      let stlPath :=
        if ".stl".toList.isSuffixOf baseName then baseName else baseName ++ ".stl".toList
      { path := stlPath, isStl := true, isCowling := p.category == "cowlings" }

/-- The `allFiles` list of `downloadParts` before the cosmetic transform
(app.js:912-925): rendered parts minus the `carriages`, `wwbmg` and
`hotendSpacers` categories and minus visual-only parts, followed by the
download-only parts' files. -/
def baseDownloadFiles (m : Manifest) (config : Config) : List FileDescriptor :=
  let parts := getMatchingParts m config
  let stlOnlyParts := getMatchingStlOnlyParts m config
  let renderedFiles :=
    (parts.filter (fun p =>
        !(p.category == "carriages") && !(p.category == "wwbmg") &&
          !(p.category == "hotendSpacers") && !p.part.visualOnly)).map renderedFileOf
  let stlOnlyFiles :=
    stlOnlyParts.map (fun p => ({ path := p.part.stlFile.toList, isStl := true } : FileDescriptor))
  renderedFiles ++ stlOnlyFiles

/-- The final download file list of `downloadParts` (app.js:904-944): the
base list, rewritten file-by-file by the cosmetic transform when the
configuration's `hexCowl` toggle is truthy. -/
def downloadFiles (m : Manifest) (config : Config) : List FileDescriptor :=
  let allFiles := baseDownloadFiles m config
  if jsTruthy (config "hexCowl") then allFiles.map hexTransformFile else allFiles

/-! ### URL-hash share-state handling (part_000:1550-1642) -/

/-- The decoded share-state payload `{ config?, mainColor?, accentColor? }`;
a missing property is `none`.  The raw `config` payload is an arbitrary
key/value object. -/
structure ShareState where
  config : Option (List (String × Val)) := none
  mainColor : Option Val := none
  accentColor : Option Val := none
deriving DecidableEq, Repr

/-- The application state fields that `loadStateFromHash` can touch. -/
structure AppState where
  config : Config
  mainColor : Val
  accentColor : Val

/-- The fixed eight-key allowlist of `validateConfig` (part_000:1551). -/
def validKeys : List String :=
  ["carriage", "hotend", "extruder", "wwbmgSensors",
   "wwbmgIdler", "toolheadBoard", "filamentCutter", "hexCowl"]

/-- The snapshot validator `validateConfig` (part_000:1550-1562): keep exactly the allowlisted
keys the raw object owns, copying each value unchanged; the values are
never checked against the option domains. -/
def validateConfig (config : List (String × Val)) : List (String × Val) :=
  validKeys.filterMap (fun key =>
    match lookupKey config key with
    | some v => some (key, v)
    | none => none)

/-- JavaScript `Object.assign(target, update)`: keys of the update win, all other
keys keep the target's value. -/
def assignConfig (target : Config) (update : List (String × Val)) : Config :=
  fun k =>
    match lookupKey update k with
    | some v => some v
    | none => target k

/-- The decoder `decodeHashToState` (part_000:1575-1583): base64-decode then
JSON-parse, with the `try`/`catch` returning `null` on either failure.
The browser built-ins `atob` and `JSON.parse` are abstract parameters
whose failure is modelled as `none`. -/
def decodeHashToState (atobFn : String → Option String)
    (parseJson : String → Option ShareState) (hash : String) : Option ShareState :=
  match atobFn hash with
  | none => none
  | some json =>
      match parseJson json with
      | none => none
      | some decoded => some decoded

/-- The loader `loadStateFromHash` (part_000:1613-1642), with the URL hash and the
mutable state passed explicitly.  The result triple is the state after the
call, the function's return value, and whether the invalid-URL alert was
raised.  On a successful decode the raw config is filtered through
`validateConfig` and merged with `Object.assign`, and each colour is merged
when present. -/
def loadStateFromHash (atobFn : String → Option String)
    (parseJson : String → Option ShareState) (hash : String)
    (state : AppState) : AppState × Bool × Bool :=
  if hash == "" then
    (state, false, false)
  else
    match decodeHashToState atobFn parseJson hash with
    | none => (state, false, true)
    | some decoded =>
        let state1 :=
          match decoded.config with
          | some rawConfig =>
              { state with config := assignConfig state.config (validateConfig rawConfig) }
          | none => state
        let state2 :=
          match decoded.mainColor with
          | some mc => { state1 with mainColor := mc }
          | none => state1
        let state3 :=
          match decoded.accentColor with
          | some ac => { state2 with accentColor := ac }
          | none => state2
        (state3, true, false)

/-! ### Concrete configurations used as witnesses -/

/-- The default configuration of app.js (`state.config`, app.js:15-24). -/
def defaultConfig : Config := fun k =>
  if k = "carriage" then some (vs "xol-carriage")
  else if k = "hotend" then some (vs "dragon")
  else if k = "extruder" then some (vs "wwbmg")
  else if k = "wwbmgSensors" then some (vs "no-sensors")
  else if k = "wwbmgIdler" then some (vs "smooth-bearing")
  else if k = "toolheadBoard" then some (vs "none")
  else if k = "filamentCutter" then some (vs "none")
  else if k = "hexCowl" then some (Val.bool false)
  else none

/-! ### C2: the `always` flag -/

/-- A variant carrying `always: true` together with a `requires` pair that
the default configuration violates. -/
def alwaysCexVariant : PartVariant :=
  { file := "LED Holder + Filter/A4T LED Holder",
    requires := some [("carriage", vs "cw2-tap")],
    always := true }

/-- C2 counterexample: in app.js's `partMatchesConfig` the `always` check
sits AFTER the `requires`/`requiresAny`/`excludeIf` early returns, so a
variant with `always: true` and a failing `requires` pair does NOT match:
the flag does not short-circuit the other predicates. -/
theorem always_no_shortcircuit_cex :
    alwaysCexVariant.always = true
      ∧ partMatchesConfig alwaysCexVariant defaultConfig = false := by
  exact ⟨rfl, rfl⟩

/-- C2 amended: in app.js's evaluator the `always` flag never influences
the result at all (both final branches return true), while in the
coverage-test mirror evaluator `always: true` does short-circuit every
other predicate to a match. -/
theorem always_flag_semantics (v : PartVariant) (c : Config) :
    partMatchesConfig v c = partMatchesConfig { v with always := false } c
      ∧ (v.always = true → devPartMatchesConfig v c = true) := by
  constructor
  · simp only [partMatchesConfig]
    by_cases h1 : (v.requires.getD []).any (fun p => !(c p.1 == some p.2)) <;>
      by_cases h2 : (v.requiresAny.getD []).any (fun p => !(memberOk c p)) <;>
        by_cases h3 : (v.excludeIf.getD []).any (fun p => memberOk c p) <;>
          simp [h1, h2, h3]
  · intro h
    simp [devPartMatchesConfig, h]

/-- Witness for the amended C2 theorem at a concrete always-variant. -/
theorem always_flag_semantics_witness :
    alwaysCexVariant.always = true
      ∧ devPartMatchesConfig alwaysCexVariant defaultConfig = true :=
  ⟨rfl, (always_flag_semantics alwaysCexVariant defaultConfig).2 rfl⟩

/-! ### C3: app.js evaluator vs. the coverage-test mirror evaluator -/

/-- The manifest variant `cowling-dragon-rapido-xol-g2`, whose
`requiresAny` lists two axes. -/
def mirrorCexVariant : PartVariant :=
  { file := "Cowlings/A4T Cowling - Dragon_Rapido - G2-Orbiter spacing [xol-carriage]",
    requires := some [("carriage", vs "xol-carriage")],
    requiresAny := some
      [ ("hotend", [vs "dragon", vs "dragon-ace", vs "dragon-uhf-mini",
                    vs "dragon-ace-volcano", vs "rapido"]),
        ("extruder", [vs "wwg2", vs "orbiter"]) ] }

/-- C3: the two evaluators disagree on a real manifest variant without an
`always` flag.  Under the default configuration (hotend `dragon`, extruder
`wwbmg`) the variant's `requiresAny` has a matching `hotend` axis but a
failing `extruder` axis: app.js (ALL axes must match) rejects it, while the
coverage-test mirror (ANY axis suffices) accepts it.  The mirror is
documented as "mirrors app.js", so this is a divergence in the mirror, not
an intended semantics. -/
theorem requiresAny_mirror_divergence :
    ((lookupKey a4tParts "cowlings").bind
        (fun cat => lookupKey cat.variants "cowling-dragon-rapido-xol-g2"))
        = some mirrorCexVariant
      ∧ mirrorCexVariant.always = false
      ∧ partMatchesConfig mirrorCexVariant defaultConfig = false
      ∧ devPartMatchesConfig mirrorCexVariant defaultConfig = true := by
  exact ⟨rfl, rfl, rfl, rfl⟩

/-! ### C4: vacuous match -/

/-- C4: a variant with no `requires`, no `requiresAny`, no `excludeIf` and
no `always` flag matches every configuration. -/
theorem vacuous_match (v : PartVariant) (c : Config)
    (h1 : v.requires = none) (h2 : v.requiresAny = none)
    (h3 : v.excludeIf = none) (h4 : v.always = false) :
    partMatchesConfig v c = true := by
  simp [partMatchesConfig, h1, h2, h3, h4]

/-- Witness for the vacuous-match theorem at the predicate-free variant. -/
theorem vacuous_match_witness :
    (({} : PartVariant).requires = none) ∧ (({} : PartVariant).requiresAny = none)
      ∧ (({} : PartVariant).excludeIf = none) ∧ (({} : PartVariant).always = false)
      ∧ partMatchesConfig {} defaultConfig = true :=
  ⟨rfl, rfl, rfl, rfl, vacuous_match {} defaultConfig rfl rfl rfl rfl⟩

/-! ### C5: totality and missing configuration keys -/

/-- C5: `partMatchesConfig` is a total Lean function (so pure and
exception-free by construction), and a missing configuration axis — read
as `undefined` — fails both the strict-equality check of `requires` and the
membership check of `requiresAny`, making any variant that constrains the
missing axis through those predicates evaluate to `false`. -/
theorem missing_axis_fails (v : PartVariant) (c : Config) (k : String)
    (hmiss : c k = none) :
    ((∃ pairs val, v.requires = some pairs ∧ (k, val) ∈ pairs) →
        partMatchesConfig v c = false)
      ∧ ((∃ pairs vals, v.requiresAny = some pairs ∧ (k, vals) ∈ pairs) →
        partMatchesConfig v c = false) := by
  constructor
  · rintro ⟨pairs, val, hreq, hmem⟩
    have hany : ((v.requires.getD []).any fun p => !(c p.1 == some p.2)) = true := by
      rw [hreq]
      exact List.any_eq_true.mpr ⟨(k, val), hmem, by simp [hmiss]⟩
    simp [partMatchesConfig, hany]
  · rintro ⟨pairs, vals, hra, hmem⟩
    by_cases hr : ((v.requires.getD []).any fun p => !(c p.1 == some p.2)) = true
    · simp [partMatchesConfig, hr]
    · have hany : ((v.requiresAny.getD []).any fun p => !(memberOk c p)) = true := by
        rw [hra]
        exact List.any_eq_true.mpr ⟨(k, vals), hmem, by simp [memberOk, hmiss]⟩
      simp [partMatchesConfig, hr, hany]

/-- A variant constraining the `hotend` axis both ways, for the C5
witness. -/
def missingAxisVariant : PartVariant :=
  { file := "Hotend Fan Ducts/A4T HE Fan Duct - Dragon",
    requires := some [("hotend", vs "dragon")],
    requiresAny := some [("hotend", [vs "dragon", vs "rapido"])] }

/-- The empty configuration: every key reads as `undefined`. -/
def emptyConfig : Config := fun _ => none

/-- Witness for the missing-axis theorem on the empty configuration. -/
theorem missing_axis_fails_witness :
    emptyConfig "hotend" = none
      ∧ partMatchesConfig missingAxisVariant emptyConfig = false :=
  ⟨rfl,
    (missing_axis_fails missingAxisVariant emptyConfig "hotend" rfl).1
      ⟨[("hotend", vs "dragon")], vs "dragon", rfl, List.Mem.head _⟩⟩

/-! ### C1: which compatibility rules the warning checker consults -/

/-- A configuration reachable through the share-URL merge path: hotend set
to `sherpa-mini` (an id that owns the only `incompatibleWith` rule) and the
crossbow cutter selected. -/
def hotendRuleConfig : Config :=
  setKey (setKey defaultConfig "hotend" (vs "sherpa-mini")) "filamentCutter" (vs "crossbow")

/-- C1 counterexample: the claim says the checker consults the rule of the
selected hotend as well, but `checkCompatibility` only ever looks up
`compatibility[config.extruder]` (app.js:441).  On a configuration whose
hotend id owns a triggered rule, the code returns no warning while the
claimed algorithm returns one. -/
theorem checkCompatibility_hotend_not_consulted_cex :
    checkCompatibility a4tManifest hotendRuleConfig = []
      ∧ specCheckCompatibility a4tManifest hotendRuleConfig =
          ["Sherpa-Mini is not supported with UHF hotends or Crossbow cutter"] := by
  exact ⟨rfl, rfl⟩

/-- Pushing one message per triggered pair with an imperative accumulator
equals filtering the triggered pairs and mapping them to the message. -/
theorem foldl_push_eq_filter_map (msg : String) (c : Config)
    (l : List (String × List Val)) (acc : List String) :
    l.foldl (fun ws p => if memberOk c p then ws ++ [msg] else ws) acc
      = acc ++ (l.filter (fun p => memberOk c p)).map (fun _ => msg) := by
  induction l generalizing acc with
  | nil => simp
  | cons p ps ih =>
      by_cases h : memberOk c p <;> simp [h, ih]

/-- C1 amended: for every manifest and configuration the warning list is
exactly the triggered warnings of the selected EXTRUDER's rule; the
selected hotend's rule is never consulted. -/
theorem checkCompatibility_extruder_only (m : Manifest) (c : Config) :
    checkCompatibility m c = ruleWarnings c (compatLookup m (c "extruder")) := by
  unfold checkCompatibility ruleWarnings
  cases compatLookup m (c "extruder") with
  | none => rfl
  | some rule =>
      have h := foldl_push_eq_filter_map rule.warningMessage c (rule.incompatibleWith.getD []) []
      simpa using h

/-! ### C6: the extruder-adapter skip rule -/

/-- C6: whenever the compatibility rule of the selected extruder or of the
selected hotend carries the `noExtruderAdapter` flag, `getMatchingParts`
resolves no part of the `extruderAdapters` category: the category is
skipped before any predicate is evaluated. -/
theorem adapter_skip_excludes_category (m : Manifest) (c : Config)
    (h : ((compatLookup m (c "extruder")).map CompatRule.noExtruderAdapter).getD false = true
       ∨ ((compatLookup m (c "hotend")).map CompatRule.noExtruderAdapter).getD false = true) :
    ∀ p ∈ getMatchingParts m c, p.category ≠ "extruderAdapters" := by
  intro p hp hcat
  have hskip :
      (((compatLookup m (c "extruder")).map CompatRule.noExtruderAdapter).getD false
        || ((compatLookup m (c "hotend")).map CompatRule.noExtruderAdapter).getD false) = true := by
    rcases h with h | h <;> simp [h]
  simp only [getMatchingParts, hskip, Bool.true_and, List.mem_flatMap] at hp
  obtain ⟨cat, _, hppart⟩ := hp
  by_cases hc : (cat.1 == "extruderAdapters") = true
  · rw [if_pos hc] at hppart
    exact absurd hppart (List.not_mem_nil p)
  · rw [if_neg hc] at hppart
    obtain ⟨pv, _, hpeq⟩ := List.mem_map.mp hppart
    rw [← hpeq] at hcat
    have hfst : cat.1 = "extruderAdapters" := hcat
    exact hc (by simp [hfst])

/-- The default configuration with the Dragon UHF hotend selected. -/
def uhfConfig : Config := setKey defaultConfig "hotend" (vs "dragon-uhf")

/-- Witness: with hotend `dragon-uhf` the manifest rule carries the flag
and no extruder-adapter part is resolved. -/
theorem adapter_skip_excludes_category_witness :
    ((compatLookup a4tManifest (uhfConfig "hotend")).map CompatRule.noExtruderAdapter).getD false
        = true
      ∧ ∀ p ∈ getMatchingParts a4tManifest uhfConfig, p.category ≠ "extruderAdapters" :=
  ⟨rfl, adapter_skip_excludes_category a4tManifest uhfConfig (Or.inr rfl)⟩

/-! ### C7: the cosmetic hex-cowl path rewrite -/

/-- Splitting never returns the empty list of groups. -/
theorem jsSplitOnChar_ne_nil (sep : Char) (l : List Char) :
    jsSplitOnChar sep l ≠ [] := by
  cases l with
  | nil => simp [jsSplitOnChar]
  | cons c cs =>
      unfold jsSplitOnChar
      by_cases h : c = sep
      · rw [if_pos h]
        simp
      · rw [if_neg h]
        cases jsSplitOnChar sep cs <;> simp

/-- Splitting a separator-free string yields the single group that is the
whole string. -/
theorem jsSplitOnChar_no_sep (sep : Char) (l : List Char) (h : sep ∉ l) :
    jsSplitOnChar sep l = [l] := by
  induction l with
  | nil => rfl
  | cons c cs ih =>
      have hc : ¬c = sep := fun he => h (he ▸ List.Mem.head _)
      have hcs : sep ∉ cs := fun hm => h (List.Mem.tail _ hm)
      unfold jsSplitOnChar
      rw [if_neg hc, ih hcs]

/-- Taking `getLastD` of a list with a nonempty tail ignores the default. -/
theorem getLastD_irrel {α : Type} (l : List α) (h : l ≠ []) (d₁ d₂ : α) :
    l.getLastD d₁ = l.getLastD d₂ := by
  cases l with
  | nil => exact absurd rfl h
  | cons b bs => rw [List.getLastD_cons, List.getLastD_cons]

/-- Taking `getLastD` looks only at the nonempty right part of an append. -/
theorem getLastD_append {α : Type} (d : α) (l₁ l₂ : List α) (h : l₂ ≠ []) :
    (l₁ ++ l₂).getLastD d = l₂.getLastD d := by
  induction l₁ generalizing d with
  | nil => rfl
  | cons a as ih =>
      rw [List.cons_append, List.getLastD_cons, ih a]
      exact getLastD_irrel l₂ h a d

/-- Splitting a string that contains a separator splits the part after the
first separator independently. -/
theorem jsSplitOnChar_append_sep (sep : Char) (s t : List Char) :
    ∃ pre : List (List Char), pre ≠ [] ∧
      jsSplitOnChar sep (s ++ sep :: t) = pre ++ jsSplitOnChar sep t := by
  induction s with
  | nil =>
      refine ⟨[[]], by simp, ?_⟩
      simp [jsSplitOnChar]
  | cons c cs ih =>
      obtain ⟨pre, hne, heq⟩ := ih
      by_cases h : c = sep
      · refine ⟨[] :: pre, by simp, ?_⟩
        subst h
        rw [List.cons_append]
        simp only [jsSplitOnChar, if_true]
        rw [heq, List.cons_append]
      · cases pre with
        | nil => exact absurd rfl hne
        | cons g gs =>
            refine ⟨(c :: g) :: gs, by simp, ?_⟩
            rw [List.cons_append]
            simp only [jsSplitOnChar]
            rw [if_neg h, heq]
            rw [List.cons_append, List.cons_append]

/-- The last group of a split is the last group of the part after a
separator. -/
theorem getLastD_jsSplitOnChar_append (sep : Char) (s t : List Char) :
    (jsSplitOnChar sep (s ++ sep :: t)).getLastD [] = (jsSplitOnChar sep t).getLastD [] := by
  obtain ⟨pre, _, heq⟩ := jsSplitOnChar_append_sep sep s t
  rw [heq]
  exact getLastD_append [] pre _ (jsSplitOnChar_ne_nil sep t)

/-- Every list starts with itself. -/
theorem isPrefixOf_self (l : List Char) : l.isPrefixOf l = true := by
  induction l with
  | nil => rfl
  | cons a as ih => simp [List.isPrefixOf, ih]

/-- A strict prefix is still a prefix after dropping the last element. -/
theorem isPrefixOf_dropLast {p l : List Char} (h : p.isPrefixOf l = true)
    (hlen : p.length < l.length) : p.isPrefixOf l.dropLast = true := by
  induction p generalizing l with
  | nil => simp [List.isPrefixOf]
  | cons a as ih =>
      cases l with
      | nil => simp [List.isPrefixOf] at h
      | cons b bs =>
          simp only [List.isPrefixOf, Bool.and_eq_true] at h
          have hbs : bs ≠ [] := by
            intro hnil
            subst hnil
            simp [List.length_cons] at hlen
          rw [List.dropLast_cons_of_ne_nil hbs]
          simp only [List.isPrefixOf, Bool.and_eq_true]
          refine ⟨h.1, ih h.2 ?_⟩
          simp only [List.length_cons] at hlen
          omega

/-- A prefix occurrence is a substring occurrence. -/
theorem hasSubstr_of_isPrefixOf {pat l : List Char} (h : pat.isPrefixOf l = true) :
    hasSubstr pat l = true := by
  cases l with
  | nil =>
      cases pat with
      | nil => rfl
      | cons a as => simp [List.isPrefixOf] at h
  | cons c cs =>
      unfold hasSubstr
      rw [h]
      rfl

/-- First-occurrence replacement of the pattern appended to a string that
contains no earlier occurrence removes exactly the appended pattern. -/
theorem jsReplaceFirst_append_pat (pat repl name : List Char) (hpat : pat ≠ [])
    (h : hasSubstr pat ((name ++ pat).dropLast) = false) :
    jsReplaceFirst pat repl (name ++ pat) = name ++ repl := by
  induction name with
  | nil =>
      rw [List.nil_append, List.nil_append]
      cases pat with
      | nil => exact absurd rfl hpat
      | cons a as =>
          unfold jsReplaceFirst
          rw [if_pos (isPrefixOf_self (a :: as))]
          rw [List.drop_length, List.append_nil]
  | cons c cs ih =>
      have hcsne : cs ++ pat ≠ [] := List.append_ne_nil_of_right_ne_nil cs hpat
      rw [List.cons_append, List.dropLast_cons_of_ne_nil hcsne] at h
      unfold hasSubstr at h
      rw [Bool.or_eq_false_iff] at h
      have hnopref : ¬pat.isPrefixOf (c :: (cs ++ pat)) = true := by
        intro hpref
        have hlen : pat.length < (c :: (cs ++ pat)).length := by
          simp [List.length_cons, List.length_append]
          omega
        have := isPrefixOf_dropLast hpref hlen
        rw [List.dropLast_cons_of_ne_nil hcsne] at this
        rw [h.1] at this
        exact Bool.false_ne_true this
      rw [List.cons_append]
      unfold jsReplaceFirst
      rw [if_neg hnopref, ih h.2]
      rfl

/-- C7: with the hex-cowl toggle active, a cowling file whose derived path
is `Cowlings/<name>.stl` (a name without slashes and with `.stl` occurring
only as the final extension) is rewritten to exactly
`Cowlings [Hexagon multi-colour]/Hex <name>.3mf` — relocated to the fixed
alternate directory, given the fixed `Hex ` prefix and the `.3mf`
extension — while every non-cowling file descriptor is left untouched. -/
theorem hexCowl_rewrites_cowling_path (name : List Char)
    (hslash : '/' ∉ name)
    (hstl : hasSubstr ".stl".toList ((name ++ ".stl".toList).dropLast) = false) :
    hexTransformFile
        { path := "Cowlings/".toList ++ name ++ ".stl".toList,
          isStl := true, isCowling := true }
      = { path := "Cowlings [Hexagon multi-colour]/".toList ++ "Hex ".toList ++ name
            ++ ".3mf".toList,
          isStl := false, isCowling := false, is3mf := true }
    ∧ ∀ f : FileDescriptor, f.isCowling = false → hexTransformFile f = f := by
  constructor
  · have hnosep : '/' ∉ name ++ ".stl".toList := by
      intro hmem
      rcases List.mem_append.mp hmem with hm | hm
      · exact hslash hm
      · simp at hm
    have hlast : (jsSplitOnChar '/' ("Cowlings/".toList ++ name ++ ".stl".toList)).getLastD []
        = name ++ ".stl".toList := by
      rw [show "Cowlings/".toList ++ name ++ ".stl".toList
            = "Cowlings".toList ++ '/' :: (name ++ ".stl".toList) from by
          rw [show "Cowlings/".toList = "Cowlings".toList ++ ['/'] from rfl]
          simp [List.append_assoc]]
      rw [getLastD_jsSplitOnChar_append, jsSplitOnChar_no_sep '/' _ hnosep]
      rfl
    have hrepl : jsReplaceFirst ".stl".toList [] (name ++ ".stl".toList) = name := by
      rw [jsReplaceFirst_append_pat ".stl".toList [] name (by decide) hstl, List.append_nil]
    unfold hexTransformFile
    rw [if_pos rfl]
    simp only [hlast, hrepl]
    simp [List.append_assoc]
  · intro f hf
    unfold hexTransformFile
    rw [hf]
    rfl

/-- The cowling file name of the comment in app.js:931, as the C7
witness. -/
def hexWitnessName : List Char := "A4T Cowling - Dragon_Rapido [cw2-tap]".toList

/-- Witness for the hex-cowl rewrite at the concrete documented example. -/
theorem hexCowl_rewrites_cowling_path_witness :
    '/' ∉ hexWitnessName
      ∧ hasSubstr ".stl".toList ((hexWitnessName ++ ".stl".toList).dropLast) = false
      ∧ hexTransformFile
          { path := "Cowlings/".toList ++ hexWitnessName ++ ".stl".toList,
            isStl := true, isCowling := true }
        = { path := "Cowlings [Hexagon multi-colour]/".toList ++ "Hex ".toList ++ hexWitnessName
              ++ ".3mf".toList,
            isStl := false, isCowling := false, is3mf := true } :=
  ⟨by decide, by decide,
    (hexCowl_rewrites_cowling_path hexWitnessName (by decide) (by decide)).1⟩

/-! ### C8: toggling the hex-cowl flag touches only cowling paths -/

/-- The result of `any` only depends on the predicate's values on the list. -/
theorem list_any_congr {α : Type} {l : List α} {f g : α → Bool}
    (h : ∀ a ∈ l, f a = g a) : l.any f = l.any g := by
  induction l with
  | nil => rfl
  | cons a as ih =>
      rw [List.any_cons, List.any_cons, h a (List.Mem.head _)]
      rw [ih (fun b hb => h b (List.Mem.tail _ hb))]

/-- The result of `flatMap` only depends on the function's values on the list. -/
theorem list_flatMap_congr {α β : Type} {l : List α} {f g : α → List β}
    (h : ∀ a ∈ l, f a = g a) : l.flatMap f = l.flatMap g := by
  induction l with
  | nil => rfl
  | cons a as ih =>
      rw [List.flatMap_cons, List.flatMap_cons, h a (List.Mem.head _)]
      rw [ih (fun b hb => h b (List.Mem.tail _ hb))]

/-- No pair of the list names the key `k`. -/
def pairsAvoid {α : Type} (k : String) (l : List (String × α)) : Bool :=
  l.all (fun p => !(p.1 == k))

/-- None of a variant's predicates constrains the axis `k`. -/
def variantAvoids (k : String) (v : PartVariant) : Bool :=
  pairsAvoid k (v.requires.getD []) && pairsAvoid k (v.requiresAny.getD [])
    && pairsAvoid k (v.excludeIf.getD [])

/-- No variant of any category of the manifest constrains the axis `k`. -/
def manifestAvoids (k : String) (m : Manifest) : Bool :=
  (m.parts.all fun cat => cat.2.variants.all fun pv => variantAvoids k pv.2)
    && (m.stlOnlyParts.all fun cat => cat.2.variants.all fun pv => variantAvoids k pv.2)

/-- Updating one key leaves every other key's value unchanged. -/
theorem setKey_ne (c : Config) (k k' : String) (v : Val) (h : k' ≠ k) :
    setKey c k v k' = c k' := if_neg h

/-- Membership `memberOk` ignores an update of a key the pair does not name. -/
theorem memberOk_setKey (c : Config) (k : String) (val : Val) (p : String × List Val)
    (h : p.1 ≠ k) : memberOk (setKey c k val) p = memberOk c p := by
  unfold memberOk
  rw [setKey_ne c k p.1 val h]

/-- Matching ignores an update of an axis the variant never constrains. -/
theorem partMatchesConfig_setKey (v : PartVariant) (c : Config) (k : String) (val : Val)
    (hav : variantAvoids k v = true) :
    partMatchesConfig v (setKey c k val) = partMatchesConfig v c := by
  rw [variantAvoids, Bool.and_eq_true, Bool.and_eq_true] at hav
  obtain ⟨⟨ha, hb⟩, hc⟩ := hav
  have hane : ∀ p ∈ v.requires.getD [], p.1 ≠ k := by
    intro p hp
    simpa using List.all_eq_true.mp ha p hp
  have hbne : ∀ p ∈ v.requiresAny.getD [], p.1 ≠ k := by
    intro p hp
    simpa using List.all_eq_true.mp hb p hp
  have hcne : ∀ p ∈ v.excludeIf.getD [], p.1 ≠ k := by
    intro p hp
    simpa using List.all_eq_true.mp hc p hp
  have e1 : ((v.requires.getD []).any fun p => !(setKey c k val p.1 == some p.2))
      = (v.requires.getD []).any fun p => !(c p.1 == some p.2) := by
    apply list_any_congr
    intro p hp
    rw [setKey_ne c k p.1 val (hane p hp)]
  have e2 : ((v.requiresAny.getD []).any fun p => !(memberOk (setKey c k val) p))
      = (v.requiresAny.getD []).any fun p => !(memberOk c p) := by
    apply list_any_congr
    intro p hp
    rw [memberOk_setKey c k val p (hbne p hp)]
  have e3 : ((v.excludeIf.getD []).any fun p => memberOk (setKey c k val) p)
      = (v.excludeIf.getD []).any fun p => memberOk c p := by
    apply list_any_congr
    intro p hp
    rw [memberOk_setKey c k val p (hcne p hp)]
  unfold partMatchesConfig
  rw [e1, e2, e3]

/-- The part resolver ignores an update of an axis that no variant
constrains and that is neither `extruder` nor `hotend`. -/
theorem getMatchingParts_setKey (m : Manifest) (c : Config) (k : String) (val : Val)
    (hav : (m.parts.all fun cat => cat.2.variants.all fun pv => variantAvoids k pv.2) = true)
    (hk1 : "extruder" ≠ k) (hk2 : "hotend" ≠ k) :
    getMatchingParts m (setKey c k val) = getMatchingParts m c := by
  unfold getMatchingParts
  rw [setKey_ne c k "extruder" val hk1, setKey_ne c k "hotend" val hk2]
  apply list_flatMap_congr
  intro cat hcat
  split
  · rfl
  · congr 1
    apply List.filter_congr
    intro pv hpv
    exact partMatchesConfig_setKey pv.2 c k val
      (List.all_eq_true.mp (List.all_eq_true.mp hav cat hcat) pv hpv)

/-- The download-only resolver ignores such an update likewise. -/
theorem getMatchingStlOnlyParts_setKey (m : Manifest) (c : Config) (k : String) (val : Val)
    (hav : (m.stlOnlyParts.all fun cat => cat.2.variants.all fun pv => variantAvoids k pv.2)
      = true) :
    getMatchingStlOnlyParts m (setKey c k val) = getMatchingStlOnlyParts m c := by
  unfold getMatchingStlOnlyParts
  apply list_flatMap_congr
  intro cat hcat
  congr 1
  apply List.filter_congr
  intro pv hpv
  exact partMatchesConfig_setKey pv.2 c k val
    (List.all_eq_true.mp (List.all_eq_true.mp hav cat hcat) pv hpv)

/-- The pre-transform file list ignores such an update. -/
theorem baseDownloadFiles_setKey (m : Manifest) (c : Config) (k : String) (val : Val)
    (hav : manifestAvoids k m = true) (hk1 : "extruder" ≠ k) (hk2 : "hotend" ≠ k) :
    baseDownloadFiles m (setKey c k val) = baseDownloadFiles m c := by
  rw [manifestAvoids, Bool.and_eq_true] at hav
  unfold baseDownloadFiles
  rw [getMatchingParts_setKey m c k val hav.1 hk1 hk2]
  rw [getMatchingStlOnlyParts_setKey m c k val hav.2]

/-- No variant of the embedded A4T manifest constrains the `hexCowl`
axis. -/
theorem a4tManifest_avoids_hexCowl : manifestAvoids "hexCowl" a4tManifest = true := by
  decide

/-- C8: for any configuration, the download list with the hex-cowl flag
off IS the pre-transform list; with the flag on it is exactly the
per-file transform of that same pre-transform list; and the transform
leaves every non-cowling descriptor (path included) unchanged.  Hence the
two lists differ only at cowling files and switching the flag off restores
the pre-transform paths exactly. -/
theorem hexCowl_toggle_roundtrip (c : Config) :
    downloadFiles a4tManifest (setKey c "hexCowl" (Val.bool false))
        = baseDownloadFiles a4tManifest (setKey c "hexCowl" (Val.bool false))
      ∧ downloadFiles a4tManifest (setKey c "hexCowl" (Val.bool true))
        = (baseDownloadFiles a4tManifest (setKey c "hexCowl" (Val.bool false))).map
            hexTransformFile
      ∧ ∀ f ∈ baseDownloadFiles a4tManifest (setKey c "hexCowl" (Val.bool false)),
          f.isCowling = false → hexTransformFile f = f := by
  refine ⟨?_, ?_, ?_⟩
  · unfold downloadFiles
    rw [show jsTruthy (setKey c "hexCowl" (Val.bool false) "hexCowl") = false from rfl]
    rfl
  · unfold downloadFiles
    rw [show jsTruthy (setKey c "hexCowl" (Val.bool true) "hexCowl") = true from rfl]
    rw [if_pos rfl]
    have h1 := baseDownloadFiles_setKey a4tManifest c "hexCowl" (Val.bool true)
      a4tManifest_avoids_hexCowl (by decide) (by decide)
    have h0 := baseDownloadFiles_setKey a4tManifest c "hexCowl" (Val.bool false)
      a4tManifest_avoids_hexCowl (by decide) (by decide)
    rw [h1, h0]
  · intro f _ hcow
    unfold hexTransformFile
    rw [hcow]
    rfl

/-- Witness: the toggle theorem applied at the default configuration. -/
theorem hexCowl_toggle_roundtrip_witness :
    downloadFiles a4tManifest (setKey defaultConfig "hexCowl" (Val.bool true))
      = (baseDownloadFiles a4tManifest (setKey defaultConfig "hexCowl" (Val.bool false))).map
          hexTransformFile :=
  (hexCowl_toggle_roundtrip defaultConfig).2.1

/-! ### C9: malformed share-URL decode -/

/-- C9: when the hash is nonempty and either the base64 decode or the JSON
parse fails, `decodeHashToState` returns `null`, and `loadStateFromHash`
returns `false` having raised the invalid-URL report and having left the
application state — configuration included — exactly as it was: the
previously active configuration stays in force and no field is applied. -/
theorem malformed_hash_leaves_state (atobFn : String → Option String)
    (parseJson : String → Option ShareState) (hash : String) (st : AppState)
    (hne : ¬(hash == "") = true)
    (hfail : atobFn hash = none ∨ ∃ j, atobFn hash = some j ∧ parseJson j = none) :
    decodeHashToState atobFn parseJson hash = none
      ∧ loadStateFromHash atobFn parseJson hash st = (st, false, true) := by
  have hdec : decodeHashToState atobFn parseJson hash = none := by
    unfold decodeHashToState
    rcases hfail with h | ⟨j, hj, hp⟩
    · rw [h]
    · rw [hj]
      simp [hp]
  refine ⟨hdec, ?_⟩
  unfold loadStateFromHash
  rw [if_neg hne, hdec]

/-- The application state at startup (app.js state initialisation). -/
def witnessState : AppState :=
  { config := defaultConfig, mainColor := Val.num 0x444444, accentColor := Val.num 0xA62C2B }

/-- Witness: a decode whose base64 step fails on the concrete hash
`"not%base64"` leaves the startup state untouched. -/
theorem malformed_hash_leaves_state_witness :
    decodeHashToState (fun _ => none) (fun _ => none) "not%base64" = none
      ∧ loadStateFromHash (fun _ => none) (fun _ => none) "not%base64" witnessState
          = (witnessState, false, true) :=
  malformed_hash_leaves_state (fun _ => none) (fun _ => none) "not%base64" witnessState
    (by decide) (Or.inl rfl)

/-! ### C10: validateConfig is a key allowlist without domain checks -/

/-- Looking a key up in the allowlist-restricted copy gives the raw value
exactly when the key is allowlisted, and nothing otherwise. -/
theorem lookupKey_filterMap (ks : List String) (f : String → Option Val) (k : String) :
    lookupKey (ks.filterMap fun key =>
        match f key with
        | some v => some (key, v)
        | none => none) k
      = if ks.contains k then f k else none := by
  induction ks with
  | nil => rfl
  | cons key ks ih =>
      rw [List.filterMap_cons]
      by_cases hk : key = k
      · subst hk
        cases hf : f key with
        | none =>
            rw [ih]
            by_cases hc : ks.contains key = true <;> simp [hc, hf]
        | some v => simp [lookupKey, hf]
      · cases hf : f key with
        | none =>
            rw [ih]
            have : ((key :: ks).contains k) = ks.contains k := by
              simp [List.contains_cons, hk]
              intro he
              exact absurd he.symm hk
            rw [this]
        | some v =>
            rw [lookupKey, if_neg hk, ih]
            have : ((key :: ks).contains k) = ks.contains k := by
              simp [List.contains_cons, hk]
              intro he
              exact absurd he.symm hk
            rw [this]

/-- The keys of the allowlist-restricted copy are the allowlisted keys the
raw object owns, in allowlist order. -/
theorem map_fst_filterMap (ks : List String) (f : String → Option Val) :
    (ks.filterMap fun key =>
        match f key with
        | some v => some (key, v)
        | none => none).map Prod.fst
      = ks.filter (fun key => (f key).isSome) := by
  induction ks with
  | nil => rfl
  | cons key ks ih =>
      cases hf : f key <;> simp [List.filterMap_cons, List.filter_cons, hf, ih]

/-- C10: `validateConfig` keeps exactly the allowlisted keys of its input,
copying every kept value unchanged and never consulting the option
domains; consequently a successfully decoded snapshot merges an option id
that exists in no domain (here a hotend unknown to the manifest) straight
into the active configuration. -/
theorem validateConfig_allowlist_passthrough (raw : List (String × Val)) :
    (validateConfig raw).map Prod.fst
        = validKeys.filter (fun key => (lookupKey raw key).isSome)
      ∧ (∀ k, lookupKey (validateConfig raw) k
          = if validKeys.contains k then lookupKey raw k else none)
      ∧ ((loadStateFromHash (fun _ => some "json")
            (fun _ => some { config := some [("hotend", vs "not-in-any-domain")] })
            "hash" witnessState).1.config "hotend" = some (vs "not-in-any-domain")
          ∧ domainContains a4tManifest "hotend" "not-in-any-domain" = false) := by
  refine ⟨map_fst_filterMap validKeys _, fun k => lookupKey_filterMap validKeys _ k, rfl, rfl⟩

end A4T
